import Mathlib

/-!
Verification of the JSON-RPC-over-HTTP transport (`src/server.ts`).

The development shallowly embeds the dispatch / serialization core and the
hybrid / standalone lifecycle of `JsonRpcServer`:
* `serializeResponse` embeds the helper of the same name,
* `handlePost` embeds the POST route handler installed by `listen`,
* `listenEffect`, `listenStep`, `closeStep` embed the lifecycle methods.

JavaScript values that may be `undefined` are modelled by `JsValue`; an
object property that may be missing is modelled by `Option`.
-/

namespace NestJsonRpc

/-- A JSON value, as carried in request and response bodies. -/
inductive Json where
  | null
  | bool (b : Bool)
  | num (n : Int)
  | str (s : String)
  | arr (elems : List Json)
  | obj (fields : List (String × Json))


/-- A JavaScript value: either `undefined` or a proper JSON value.
Reading a missing object property in JavaScript yields `undefined`,
so a possibly-absent property read by the code is a `JsValue`. -/
inductive JsValue where
  | undef
  | val (j : Json)


/-- The shape of an error object as read by `serializeResponse`
(`src/server.ts` lines 57-66): the serializer accesses exactly the
`code`, `message` and `data` properties of the rejection value.
`code = none` models an absent/`undefined` code; `data = JsValue.undef`
models an absent `data` property. -/
structure CodedRpcException where
  code : Option Int
  message : String
  data : JsValue


/-- Modelled from the spec: the `CodedRpcException` constructor lives in
`src/coded-error.ts`, which is not among the sources (only its import and
call sites are). The spec defines CodedError as
`{code: integer, message: string, data?: any}`; the constructor is called
as `new CodedRpcException(message, code)` or
`new CodedRpcException(message, code, data)`, carrying those fields. -/
def CodedRpcException.make (message : String) (code : Int) (data : JsValue) :
    CodedRpcException :=
  { code := some code, message := message, data := data }

/-- The union type `{ value: T } | { error: CodedRpcException }` handed to
`serializeResponse` (built by `promiseResult.then(value => ({value}),
error => ({error}))`, `src/server.ts` lines 104-107). -/
inductive RpcOutcome where
  | value (v : JsValue)
  | error (e : CodedRpcException)


/-- The `error` member of a serialized response envelope
(`{code, data, message}` object literal, `src/server.ts` lines 60-64). -/
structure JsonRpcError where
  code : Int
  message : String
  data : JsValue


/-- The response envelope returned by `serializeResponse`.  `result` and
`error` are `Option`s because each object literal in the source assigns
only one of the two properties; `result = some JsValue.undef` is an
assigned `result` property holding `undefined`. -/
structure JsonRpcResponse where
  jsonrpc : String
  id : JsValue
  result : Option JsValue
  error : Option JsonRpcError


/-- JavaScript `x || d` for an integer-or-`undefined` `x`: the default is
taken when `x` is absent or falsy (`0`). -/
def orFalsy (x : Option Int) (d : Int) : Int :=
  match x with
  | none => d
  | some c => if c = 0 then d else c

/-- Embedding of `serializeResponse` (`src/server.ts` lines 53-70):
if the outcome carries an `error`, build the error envelope with
`code: response.error.code || 500`, `data: response.error.data`,
`message: response.error.message`; otherwise build
`{jsonrpc: "2.0", id, result: response.value}`. -/
def serializeResponse (id : JsValue) (response : RpcOutcome) : JsonRpcResponse :=
  match response with
  | .error e =>
      { jsonrpc := "2.0"
        id := id
        result := none
        error := some { code := orFalsy e.code 500, message := e.message, data := e.data } }
  | .value v =>
      { jsonrpc := "2.0", id := id, result := some v, error := none }

/-- The request metadata source backing `JsonRpcContext.getMetadataByKey`
(`req.get(metadataKey)`). -/
def RpcContext := String → Option String

/-- A message handler from the registry, as consumed by the route handler:
invoked with `(params, context)`, its settled outcome (through
`transformToObservable`/`toPromise`) is either a fulfilment value or a
rejection value, captured by the two branches of
`promiseResult.then(value => ({value}), error => ({error}))`. -/
def Handler := JsValue → RpcContext → Except CodedRpcException JsValue

/-- The method registry consulted by `this.getHandlerByPattern(req.body.method)`:
an exact-string lookup populated before `listen`. -/
def Registry := String → Option Handler

/-- The fields of `req.body` read by the route handler: `id`, `method`
and `params`. -/
structure Request where
  id : JsValue
  method : String
  params : JsValue


/-- An HTTP reply written by the route handler: the status passed to
`res.status` and the body passed to `res.json`. -/
structure HttpReply where
  status : Nat
  body : JsonRpcResponse

/-- Embedding of the POST route handler installed by `listen`
(`src/server.ts` lines 93-112): look the method up in the registry; when
absent, answer `res.status(200).json(serializeResponse(req.body.id,
{error: new CodedRpcException("Method not found: " + method, 404)}))`;
otherwise invoke the handler with `(req.body.params, context)`, capture
its settled outcome via the two-branch `then`, and answer
`res.status(200).json(serializeResponse(req.body.id, response))`. -/
def handlePost (registry : Registry) (meta : RpcContext) (req : Request) : HttpReply :=
  match registry req.method with
  | none =>
      { status := 200
        body := serializeResponse req.id
          (.error (CodedRpcException.make ("Method not found: " ++ req.method) 404 .undef)) }
  | some handler =>
      let response : RpcOutcome :=
        match handler req.params meta with
        | .ok v => .value v
        | .error e => .error e
      { status := 200, body := serializeResponse req.id response }

/-- The server options object: a `path` always, an `adapter` in hybrid
mode, a `port` (and optional `hostname`) in standalone mode.  The source
is an untagged TypeScript union, so nothing prevents an object carrying
both `adapter` and `port`; the model therefore keeps both as `Option`s.
`adapter = some ()` stands for a supplied host listener reference. -/
structure JsonRpcServerOptions where
  path : String
  adapter : Option Unit
  port : Option Nat
  hostname : Option String

/-- Embedding of `JsonRpcServer.isHybrid` (`src/server.ts` lines 136-138):
`(options as HybridJsonRpcServerOptions).adapter !== undefined`. -/
def isHybrid (options : JsonRpcServerOptions) : Bool :=
  options.adapter.isSome

/-- Embedding of `JsonRpcServer.isStandalone` (`src/server.ts` lines 140-142):
`(options as StandaloneJsonRpcServerOptions).port !== undefined`. -/
def isStandalone (options : JsonRpcServerOptions) : Bool :=
  options.port.isSome

/-- Which express application the route is mounted on in `listen`:
the adapter supplied in the options, or a freshly constructed
`new ExpressAdapter(express())`. -/
inductive AppChoice where
  | supplied
  | fresh

/-- The observable effect of one `listen()` call (`src/server.ts` lines
84-124), apart from mounting the POST route: which app is used, whether
`app.listen` is invoked and with which port and hostname, and the value
assigned to `this.server` by the binding step (`none` when the step does
not assign it). -/
structure ListenEffect where
  app : AppChoice
  bound : Option (Nat × Option String)
  serverAssigned : Option Bool

/-- Embedding of `JsonRpcServer.listen` (`src/server.ts` lines 84-124):
first the hybrid check picks the app (`if (this.isHybrid(this.options))
app = this.options.adapter; else app = new ExpressAdapter(...)`), then the
binding step runs `if (this.isStandalone(this.options))
this.server = app.listen(port[, hostname], cb); else cb()`.  The assigned
`this.server` is a listening handle, modelled as `some true`. -/
def listenEffect (options : JsonRpcServerOptions) : ListenEffect :=
  let app := if isHybrid options then AppChoice.supplied else AppChoice.fresh
  match options.port with
  | some p => { app := app, bound := some (p, options.hostname), serverAssigned := some true }
  | none => { app := app, bound := none, serverAssigned := none }

/-- The mutable state of a `JsonRpcServer`: its (immutable) options and
the `server` field — `none` is the initial `null`, `some true` a handle
still listening, `some false` a handle whose `close` has completed. -/
structure JsonRpcServerState where
  options : JsonRpcServerOptions
  server : Option Bool

/-- A freshly constructed `JsonRpcServer`: `public server: http.Server |
null = null` (`src/server.ts` line 72). -/
def newServer (options : JsonRpcServerOptions) : JsonRpcServerState :=
  { options := options, server := none }

/-- State transition of `listen()`: the binding step assigns
`this.server` exactly when the standalone check holds. -/
def listenStep (s : JsonRpcServerState) : JsonRpcServerState :=
  match (listenEffect s.options).serverAssigned with
  | some h => { s with server := some h }
  | none => s

/-- The error Node's `http.Server.close(cb)` passes to its callback when
the server is not running. -/
inductive CloseError where
  | serverNotRunning

/-- How an awaited completion can settle: `none` when the underlying
callback is never invoked, so the promise never settles and the `await`
never completes. -/
def Completion := Option (Except CloseError Unit)

/-- Embedding of `JsonRpcServer.close` (`src/server.ts` lines 129-134)
together with the two collaborators it is built on.
Modelled from the spec: `invokeAsync` lives in `src/util.ts`, which is not
among the sources; per the spec it exposes a callback invocation "as a
single awaitable completion", i.e. its promise settles exactly when the
callback fires, rejecting when the callback receives an error.
`http.Server.close(cb)` follows Node's documented contract: when the
server is listening it stops accepting connections and invokes `cb()`
once shutdown finishes; when it is not running it invokes `cb` with an
`ERR_SERVER_NOT_RUNNING` error.
The method itself: in hybrid mode (`isStandalone` false) it does nothing
and completes; in standalone mode it awaits
`invokeAsync(cb => this.server && this.server.close(cb))` — when
`this.server` is `null` the conjunction short-circuits and `cb` is never
invoked. -/
def closeStep (s : JsonRpcServerState) : Completion × JsonRpcServerState :=
  if isStandalone s.options then
    match s.server with
    | none => (none, s)
    | some true => (some (.ok ()), { s with server := some false })
    | some false => (some (.error .serverNotRunning), s)
  else
    (some (.ok ()), s)

/-! Sample handlers, registry and options used to instantiate theorems on
concrete inputs. -/

/-- A handler that fails with a structured error, like `testError` in the
test service. -/
def errHandler : Handler :=
  fun _ _ => .error { code := some 403, message := "RPC EXCEPTION", data := .val (.str "d") }

/-- A handler that succeeds with its params, like `invoke` in the test
service. -/
def okHandler : Handler := fun params _ => .ok params

/-- A small concrete registry. -/
def sampleRegistry : Registry := fun m =>
  match m with
  | "test.invoke" => some okHandler
  | "test.testError" => some errHandler
  | _ => none

/-- A metadata source with no entries. -/
def noMeta : RpcContext := fun _ => none

/-- Standalone options: a port, no adapter. -/
def standaloneOpts : JsonRpcServerOptions :=
  { path := "/rpc", adapter := none, port := some 3000, hostname := none }

/-- Hybrid options: an adapter, no port. -/
def hybridOpts : JsonRpcServerOptions :=
  { path := "/rpc", adapter := some (), port := none, hostname := none }

/-- Malformed options carrying both an adapter and a port. -/
def bothOpts : JsonRpcServerOptions :=
  { path := "/rpc", adapter := some (), port := some 3000, hostname := none }

/-- C1: for every request whose method resolves to a handler, a failing
outcome of processing is captured by the dispatcher and serialized into
an error envelope: the reply's body has `error` populated and no
`result`, the id is echoed, and the reply is written with status 200 —
the failure never escapes the route handler, which always produces a
reply. -/
theorem c1_failure_captured_as_error_envelope
    (registry : Registry) (meta : RpcContext) (req : Request)
    (handler : Handler) (e : CodedRpcException)
    (hreg : registry req.method = some handler)
    (hfail : handler req.params meta = .error e) :
    (handlePost registry meta req).body.error =
      some { code := orFalsy e.code 500, message := e.message, data := e.data } ∧
    (handlePost registry meta req).body.result = none ∧
    (handlePost registry meta req).body.id = req.id ∧
    (handlePost registry meta req).status = 200 := by
  simp [handlePost, hreg, hfail, serializeResponse]

/-- Witness for C1 at a concrete request served by `errHandler`. -/
theorem c1_witness :
    (handlePost sampleRegistry noMeta
        { id := .val (.str "1"), method := "test.testError", params := .undef }).body.error =
      some { code := orFalsy (some 403) 500, message := "RPC EXCEPTION",
             data := .val (.str "d") } ∧
    (handlePost sampleRegistry noMeta
        { id := .val (.str "1"), method := "test.testError", params := .undef }).body.result =
      none ∧
    (handlePost sampleRegistry noMeta
        { id := .val (.str "1"), method := "test.testError", params := .undef }).body.id =
      JsValue.val (.str "1") ∧
    (handlePost sampleRegistry noMeta
        { id := .val (.str "1"), method := "test.testError", params := .undef }).status = 200 :=
  c1_failure_captured_as_error_envelope sampleRegistry noMeta
    { id := .val (.str "1"), method := "test.testError", params := .undef }
    errHandler { code := some 403, message := "RPC EXCEPTION", data := .val (.str "d") }
    rfl rfl

/-- C3: for every request whose method is not in the registry, the reply
is an error envelope with code 404 and message `"Method not found: "`
followed by the requested method name, and no `result` field. -/
theorem c3_method_not_found_404
    (registry : Registry) (meta : RpcContext) (req : Request)
    (h : registry req.method = none) :
    (handlePost registry meta req).body.error =
      some { code := 404, message := "Method not found: " ++ req.method, data := .undef } ∧
    (handlePost registry meta req).body.result = none := by
  refine ⟨?_, ?_⟩ <;>
    simp [handlePost, h, serializeResponse, CodedRpcException.make, orFalsy]

/-- Witness for C3 at the unregistered method name `"missing"`. -/
theorem c3_witness :
    (handlePost sampleRegistry noMeta
        { id := .val (.str "2"), method := "missing", params := .undef }).body.error =
      some { code := 404, message := "Method not found: " ++ "missing", data := .undef } ∧
    (handlePost sampleRegistry noMeta
        { id := .val (.str "2"), method := "missing", params := .undef }).body.result = none :=
  c3_method_not_found_404 sampleRegistry noMeta
    { id := .val (.str "2"), method := "missing", params := .undef } rfl

/-- C4 counterexample: a failure outcome carrying code 0 (a carried but
falsy code), a message and data is serialized with `error.code = 500`,
not the carried 0: `response.error.code || 500` discards falsy codes, so
the serializer does not use the carried fields exactly. -/
theorem c4_counterexample :
    (serializeResponse (.val (.str "1"))
        (.error { code := some 0, message := "m", data := .val (.str "d") })).error =
      some { code := 500, message := "m", data := .val (.str "d") } ∧
    (500 : Int) ≠ 0 := by
  refine ⟨rfl, by decide⟩

/-- C4 amended: for every failure outcome carrying a truthy (nonzero)
code C, a message and data D, the serializer uses those fields exactly:
`error.code = C`, `error.message` is the carried message and
`error.data = D`; a carried code of 0 is treated like an absent one and
defaults to 500. -/
theorem c4_structured_error_fields_used
    (id : JsValue) (c : Int) (m : String) (d : JsValue) (hc : c ≠ 0) :
    (serializeResponse id (.error { code := some c, message := m, data := d })).error =
      some { code := c, message := m, data := d } := by
  simp [serializeResponse, orFalsy, hc]

/-- Witness for C4 amended at code 403 and string data. -/
theorem c4_witness :
    (403 : Int) ≠ 0 ∧
    (serializeResponse (.val (.str "2"))
        (.error { code := some 403, message := "RPC EXCEPTION",
                  data := .val (.str "d") })).error =
      some { code := 403, message := "RPC EXCEPTION", data := .val (.str "d") } :=
  ⟨by decide,
   c4_structured_error_fields_used (.val (.str "2")) 403 "RPC EXCEPTION"
     (.val (.str "d")) (by decide)⟩

/-- C5 counterexample: a failure outcome whose code is absent but which
carries a `data` property is serialized with that data present —
`data: response.error.data` is passed through unconditionally, so a
code-less failure does not guarantee an omitted data field. -/
theorem c5_counterexample :
    (serializeResponse (.val (.str "1"))
        (.error { code := none, message := "m", data := .val (.str "d") })).error =
      some { code := 500, message := "m", data := .val (.str "d") } ∧
    JsValue.val (.str "d") ≠ JsValue.undef :=
  ⟨rfl, fun h => JsValue.noConfusion h⟩

/-- C5 amended: for every failure outcome whose code is absent or falsy
and which carries no data property (an unstructured failure such as a
plain `TypeError`), the error envelope has code 500, message equal to the
failure's message and no data field (its `data` is `undefined`, omitted
from the JSON output). -/
theorem c5_unstructured_failure_normalized
    (id : JsValue) (e : CodedRpcException)
    (hc : e.code = none ∨ e.code = some 0) (hd : e.data = .undef) :
    (serializeResponse id (.error e)).error =
      some { code := 500, message := e.message, data := .undef } := by
  rcases hc with hc | hc <;> simp [serializeResponse, orFalsy, hc, hd]

/-- Witness for C5 amended at a code-less, data-less failure. -/
theorem c5_witness :
    ((none : Option Int) = none ∨ (none : Option Int) = some 0) ∧
    (serializeResponse (.val (.str "3"))
        (.error { code := none, message := "Accidental server error",
                  data := .undef })).error =
      some { code := 500, message := "Accidental server error", data := .undef } :=
  ⟨Or.inl rfl,
   c5_unstructured_failure_normalized (.val (.str "3"))
     { code := none, message := "Accidental server error", data := .undef }
     (Or.inl rfl) rfl⟩

/-- C6: every envelope returned by `serializeResponse` has exactly one of
the `result` and `error` properties assigned — never both, never neither
— for every outcome, including a success outcome whose value is
`undefined` (the success branch still assigns the `result` property,
holding `undefined`). -/
theorem c6_exactly_one_of_result_error (id : JsValue) (response : RpcOutcome) :
    ((serializeResponse id response).result.isSome ∧
      (serializeResponse id response).error = none) ∨
    ((serializeResponse id response).result = none ∧
      (serializeResponse id response).error.isSome) := by
  cases response <;> simp [serializeResponse]

/-- C7: the reply's envelope echoes `req.body.id` verbatim, in the
success, failure and method-not-found branches alike. -/
theorem c7_id_echoed (registry : Registry) (meta : RpcContext) (req : Request) :
    (handlePost registry meta req).body.id = req.id := by
  cases hreg : registry req.method with
  | none => simp [handlePost, hreg, serializeResponse]
  | some handler =>
      cases hout : handler req.params meta <;>
        simp [handlePost, hreg, hout, serializeResponse]

/-- C8: every reply the route handler writes carries HTTP status 200,
whether the method resolves or not and whether the handler succeeds or
fails. -/
theorem c8_status_always_200 (registry : Registry) (meta : RpcContext) (req : Request) :
    (handlePost registry meta req).status = 200 := by
  cases hreg : registry req.method <;> simp [handlePost, hreg]

/-- C2: evaluating `close()` on a freshly constructed standalone server
that never called `listen()`: `this.server` is `null`, so
`this.server && this.server.close(cb)` short-circuits without ever
invoking `cb`, and the awaited completion never settles — `close()`
never completes, contradicting the stated safe no-op. -/
theorem c2_close_before_listen_never_settles :
    (closeStep (newServer standaloneOpts)).1 = none := rfl

/-- C9 counterexample: a standalone server that listened and then closed
once; the second `close()` finds `this.server` still holding the
now-closed handle, `this.server.close(cb)` invokes `cb` with Node's
not-running error, and the awaited completion rejects — `close()` is not
safe to call a second time in standalone mode. -/
theorem c9_counterexample :
    (closeStep (closeStep (listenStep (newServer standaloneOpts))).2).1 =
      some (.error .serverNotRunning) := rfl

/-- C9 amended: when the options carry no port — hybrid mode — `close()`
is idempotent: every call, in any state, is a no-op that completes
without error and leaves the state unchanged, so calling it any number of
times is safe.  (In standalone mode the claim fails: a second `close()`
after a completed one rejects with the listener's not-running error, and
a `close()` before a successful `listen()` never settles.) -/
theorem c9_close_idempotent_hybrid
    (s : JsonRpcServerState) (h : s.options.port = none) :
    closeStep s = (some (.ok ()), s) := by
  simp [closeStep, isStandalone, h]

/-- Witness for C9 amended: a hybrid server, closed twice, completes both
times without error. -/
theorem c9_witness :
    (newServer hybridOpts).options.port = none ∧
    closeStep (newServer hybridOpts) = (some (.ok ()), newServer hybridOpts) ∧
    (closeStep (closeStep (newServer hybridOpts)).2).1 = some (.ok ()) := by
  refine ⟨rfl, c9_close_idempotent_hybrid (newServer hybridOpts) rfl, ?_⟩
  have h2 := c9_close_idempotent_hybrid (closeStep (newServer hybridOpts)).2 rfl
  rw [h2]

/-- C10 counterexample: with options carrying both an adapter and a port,
`listen()` does bind a listener and does assign the owned-server field:
the binding step's standalone check also passes, `app.listen(3000, cb)`
is invoked on the supplied adapter, and `this.server` is assigned the
resulting handle instead of remaining null. -/
theorem c10_counterexample :
    (listenEffect bothOpts).bound = some (3000, none) ∧
    (listenStep (newServer bothOpts)).server ≠ none :=
  ⟨rfl, fun h => Option.noConfusion h⟩

/-- C10 amended: with both an adapter and a port present, the hybrid
check is evaluated first, so the supplied adapter is used and no fresh
adapter is created; but the binding step's standalone check also passes,
so `listen(port)` is invoked on the supplied adapter and the owned-server
field is assigned the resulting listening handle — it does not remain
null. -/
theorem c10_both_adapter_and_port
    (o : JsonRpcServerOptions) (p : Nat)
    (ha : o.adapter.isSome) (hp : o.port = some p) :
    (listenEffect o).app = AppChoice.supplied ∧
    (listenEffect o).bound = some (p, o.hostname) ∧
    (listenStep (newServer o)).server = some true := by
  have hh : isHybrid o = true := by simp [isHybrid, ha]
  refine ⟨?_, ?_, ?_⟩ <;> simp [listenEffect, listenStep, newServer, hh, hp]

/-- Witness for C10 amended at the concrete malformed options. -/
theorem c10_witness :
    bothOpts.adapter.isSome ∧ bothOpts.port = some 3000 ∧
    ((listenEffect bothOpts).app = AppChoice.supplied ∧
     (listenEffect bothOpts).bound = some (3000, bothOpts.hostname) ∧
     (listenStep (newServer bothOpts)).server = some true) :=
  ⟨rfl, rfl, c10_both_adapter_and_port bothOpts 3000 rfl rfl⟩

end NestJsonRpc
